import Mathlib

/-!
Parametric 3D curves: Circle, Ellipse, Helix

A shallow embedding of `ConsoleApplication1.cpp`.

* `double` is read as an arbitrary field `α` (the theorems are stated for every linearly
  ordered field, or for `ℝ` where trigonometry is involved), so the definitions stay executable
  (for instance over `ℚ`).
* `std::cos` and `std::sin` are library functions; the curve methods take them as the two
  arguments `cos sin : α → α`, and the theorems instantiate them with `Real.cos` and `Real.sin`.
* `rand()` is modelled by explicit state passing: the state is the stream of values that the
  successive calls return.
* `std::sort` is library code; it is modelled by an insertion sort driven by the comparator
  that the source passes to it.
* `M_PI` is the decimal literal of line 7. Where a statement reads `M_PI` as the number pi,
  it uses `Helix.getPointWith`, the body of `Helix::getPoint` with the value of the macro as
  an argument, taken at `Real.pi`.
-/

namespace TestCadex

/-! ## Geometry primitives -/

/-- The class `Point3D`: three coordinates. -/
structure Point3D (α : Type) where
  x : α
  y : α
  z : α
  deriving DecidableEq, Repr

/-- The class `Vector3D`: three coordinates. -/
structure Vector3D (α : Type) where
  x : α
  y : α
  z : α
  deriving DecidableEq, Repr

/-- The macro `M_PI` of line 7, a decimal literal. -/
def M_PI {α : Type} [Field α] : α := 3.14159265358979323846

/-! ## Curve variants -/

/-- The class `Circle`: one private field `radius`. -/
structure Circle (α : Type) where
  radius : α
  deriving DecidableEq, Repr

/-- The class `Ellipse`: private fields `radiusX`, `radiusY`. -/
structure Ellipse (α : Type) where
  radiusX : α
  radiusY : α
  deriving DecidableEq, Repr

/-- The class `Helix`: private fields `radius`, `step`. -/
structure Helix (α : Type) where
  radius : α
  step : α
  deriving DecidableEq, Repr

namespace Circle
variable {α : Type} [Field α]

/-- The method `Circle::getPoint`. -/
def getPoint (cos sin : α → α) (c : Circle α) (t : α) : Point3D α :=
  let x := c.radius * cos t
  let y := c.radius * sin t
  { x := x, y := y, z := 0.0 }

/-- The method `Circle::getDerivative`. -/
def getDerivative (cos sin : α → α) (c : Circle α) (t : α) : Vector3D α :=
  let dx_dt := -c.radius * sin t
  let dy_dt := c.radius * cos t
  { x := dx_dt, y := dy_dt, z := 0.0 }

end Circle

/-- The method `Circle::getRadius`. -/
def Circle.getRadius {α : Type} (c : Circle α) : α := c.radius

namespace Ellipse
variable {α : Type} [Field α]

/-- The method `Ellipse::getPoint`. -/
def getPoint (cos sin : α → α) (e : Ellipse α) (t : α) : Point3D α :=
  let x := e.radiusX * cos t
  let y := e.radiusY * sin t
  { x := x, y := y, z := 0.0 }

/-- The method `Ellipse::getDerivative`. -/
def getDerivative (cos sin : α → α) (e : Ellipse α) (t : α) : Vector3D α :=
  let dx_dt := -e.radiusX * sin t
  let dy_dt := e.radiusY * cos t
  { x := dx_dt, y := dy_dt, z := 0.0 }

end Ellipse

namespace Helix
variable {α : Type} [Field α]

/-- The method `Helix::getPoint`. -/
def getPoint (cos sin : α → α) (h : Helix α) (t : α) : Point3D α :=
  let x := h.radius * cos t
  let y := h.radius * sin t
  let z := h.step * t / (2 * M_PI)
  { x := x, y := y, z := z }

/-- The method `Helix::getDerivative`. -/
def getDerivative (cos sin : α → α) (h : Helix α) (t : α) : Vector3D α :=
  let dx_dt := -h.radius * sin t
  let dy_dt := h.radius * cos t
  let dz_dt := h.step / (2 * M_PI)
  { x := dx_dt, y := dy_dt, z := dz_dt }

end Helix

/-- The abstract class `Curve3D` with its three derived classes: the dynamic type of an object
behind a `Curve3D` pointer. -/
inductive Curve3D (α : Type) where
  | circle (c : Circle α)
  | ellipse (e : Ellipse α)
  | helix (h : Helix α)
  deriving DecidableEq, Repr

namespace Curve3D
variable {α : Type} [Field α]

/-- Virtual dispatch of `getPoint`. -/
def getPoint (cos sin : α → α) : Curve3D α → α → Point3D α
  | circle c, t => c.getPoint cos sin t
  | ellipse e, t => e.getPoint cos sin t
  | helix h, t => h.getPoint cos sin t

/-- Virtual dispatch of `getDerivative`. -/
def getDerivative (cos sin : α → α) : Curve3D α → α → Vector3D α
  | circle c, t => c.getDerivative cos sin t
  | ellipse e, t => e.getDerivative cos sin t
  | helix h, t => h.getDerivative cos sin t

end Curve3D

/-- The cast `dynamic_cast<Circle*>(curve.get())`: the circle when the dynamic type is
`Circle`, the null pointer (`none`) otherwise. -/
def Curve3D.dynamicCastCircle {α : Type} : Curve3D α → Option (Circle α)
  | .circle c => some c
  | .ellipse _ => none
  | .helix _ => none

/-! ## Library models -/

namespace std

/-- One insertion step of the sort: `x` goes in front of the first element it compares
less than. -/
def sortInsert {β : Type} (comp : β → β → Bool) (x : β) : List β → List β
  | [] => [x]
  | y :: ys => if comp x y then x :: y :: ys else y :: sortInsert comp x ys

/-- The library function `std::sort(first, last, comp)` over a whole vector, as an insertion
sort that consults only the comparator `comp`. -/
def sort {β : Type} (comp : β → β → Bool) : List β → List β
  | [] => []
  | x :: xs => sortInsert comp x (sort comp xs)

end std

/-- State of the C library generator: the values that the coming calls of `rand()` return,
in call order. -/
abbrev RandState := Nat → Nat

/-- The library function `rand()`: returns the next value and advances the state. -/
def rand (g : RandState) : Nat × RandState := (g 0, fun n => g (n + 1))

/-! ## The passes of `main` -/

/-- One line written to `std::cout`, given by the values that are formatted into it: a
`Point: (...) Derivative: (...)` line of the evaluation loop, or the `Total sum of radii:`
line. -/
inductive Line (α : Type) where
  | pointDerivative (point : Point3D α) (derivative : Vector3D α)
  | totalSumOfRadii (totalRadiusSum : α)
  deriving DecidableEq, Repr

/-- The state that lines 113 to 138 of `main` work on: the vector `curves` and the lines
written to `std::cout` so far. -/
structure ProgramState (α : Type) where
  curves : List (Curve3D α)
  cout : List (Line α)
  deriving DecidableEq, Repr

namespace main
variable {α : Type} [LinearOrderedField α]

/-- The local `radius` of line 96, from the value `r` returned by `rand()`. -/
def radius (RAND_MAX : Nat) (r : Nat) : α := (r : α) / (RAND_MAX : α) * 10.0 + 1.0

/-- The local `step` of line 97, from the value `r` returned by `rand()`. -/
def step (RAND_MAX : Nat) (r : Nat) : α := (r : α) / (RAND_MAX : α) * 0.5 + 0.1

/-- The local `choice` of line 99, from the value `r` returned by `rand()`. -/
def choice (r : Nat) : Nat := r % 3

/-- The body of the generation loop (lines 96 to 110): three calls of `rand()`, then the
`switch`, which has no `default` label. -/
def slot (RAND_MAX : Nat) (g : RandState) (curves : List (Curve3D α)) :
    RandState × List (Curve3D α) :=
  let (r1, g1) := rand g
  let radius : α := radius RAND_MAX r1
  let (r2, g2) := rand g1
  let step : α := step RAND_MAX r2
  let (r3, g3) := rand g2
  match choice r3 with
  | 0 => (g3, curves ++ [Curve3D.circle ⟨radius⟩])
  | 1 => (g3, curves ++ [Curve3D.ellipse ⟨radius, radius * 0.5⟩])
  | 2 => (g3, curves ++ [Curve3D.helix ⟨radius, step⟩])
  | _ => (g3, curves)

/-- The generation loop `for (int i = 0; i < 10; ++i)`, with `n` the number of iterations
still to run. -/
def generationLoop (RAND_MAX : Nat) : Nat → RandState → List (Curve3D α) →
    RandState × List (Curve3D α)
  | 0, g, curves => (g, curves)
  | n + 1, g, curves =>
    let (g', curves') := slot RAND_MAX g curves
    generationLoop RAND_MAX n g' curves'

/-- The vector `curves` once the generation loop has run (lines 93 to 111). -/
def curves (RAND_MAX : Nat) (g : RandState) : List (Curve3D α) :=
  (generationLoop RAND_MAX 10 g []).2

/-- The filter loop of lines 122 to 127: the circles of the scene, in scene order. -/
def selectCircles (curves : List (Curve3D α)) : List (Circle α) :=
  curves.foldl
    (fun circles curve =>
      match curve.dynamicCastCircle with
      | some c => circles ++ [c]
      | none => circles)
    []

/-- The comparator handed to `std::sort` (lines 129 to 131). -/
def comparator (a b : Circle α) : Bool := decide (a.getRadius < b.getRadius)

/-- The vector `circles` after `std::sort` (lines 122 to 131). -/
def circles (curves : List (Curve3D α)) : List (Circle α) :=
  std.sort comparator (selectCircles curves)

/-- The summation loop of lines 133 to 136 over a vector of circles. -/
def sumRadii (circles : List (Circle α)) : α :=
  circles.foldl (fun totalRadiusSum circle => totalRadiusSum + circle.getRadius) 0.0

/-- The value `totalRadiusSum` printed on line 138 (the whole aggregation pass). -/
def totalRadiusSum (curves : List (Curve3D α)) : α :=
  sumRadii (circles curves)

/-- The local `t` of line 113. -/
def t : α := M_PI / 4.0

/-- The evaluation loop of lines 114 to 120: for each curve of the scene, in order, one line
is written from its point and its derivative at `t`. -/
def evaluationPass (cos sin : α → α) (s : ProgramState α) : ProgramState α :=
  s.curves.foldl
    (fun st curve =>
      let point := curve.getPoint cos sin t
      let derivative := curve.getDerivative cos sin t
      { st with cout := st.cout ++ [Line.pointDerivative point derivative] })
    s

/-- Lines 122 to 138: the aggregation pass and the line that prints its total. -/
def aggregationPass (s : ProgramState α) : ProgramState α :=
  { s with cout := s.cout ++ [Line.totalSumOfRadii (totalRadiusSum s.curves)] }

/-- The function `main` from the state of `rand()` at entry: generation, evaluation,
aggregation; the result is the final state and the exit code. -/
def run (RAND_MAX : Nat) (cos sin : α → α) (g : RandState) : ProgramState α × Int :=
  let s : ProgramState α := { curves := curves RAND_MAX g, cout := [] }
  let s := evaluationPass cos sin s
  let s := aggregationPass s
  (s, 0)

end main

/-! ## Lemmas on the library models and the loops -/

theorem std.sortInsert_perm {β : Type} (comp : β → β → Bool) (x : β) (l : List β) :
    (std.sortInsert comp x l).Perm (x :: l) := by
  induction l with
  | nil => exact List.Perm.refl _
  | cons y ys ih =>
    unfold std.sortInsert
    split
    · exact List.Perm.refl _
    · exact (List.Perm.cons y ih).trans (List.Perm.swap x y ys)

theorem std.sort_perm {β : Type} (comp : β → β → Bool) (l : List β) :
    (std.sort comp l).Perm l := by
  induction l with
  | nil => exact List.Perm.refl _
  | cons x xs ih =>
    unfold std.sort
    exact (std.sortInsert_perm comp x _).trans (List.Perm.cons x ih)

/-- Inserting into a vector that is in order for a strict comparator (irreflexive-asymmetric
and transitive) leaves it in order: no element compares less than an earlier one. -/
theorem std.sortInsert_pairwise {β : Type} (comp : β → β → Bool)
    (hasymm : ∀ a b, comp a b = true → comp b a = false)
    (htrans : ∀ a b c, comp a b = true → comp b c = true → comp a c = true)
    (x : β) (l : List β) (hl : l.Pairwise (fun a b => comp b a = false)) :
    (std.sortInsert comp x l).Pairwise (fun a b => comp b a = false) := by
  induction l with
  | nil => simp [std.sortInsert]
  | cons y ys ih =>
    rw [List.pairwise_cons] at hl
    unfold std.sortInsert
    split
    · rename_i hxy
      refine List.pairwise_cons.mpr ⟨?_, List.pairwise_cons.mpr hl⟩
      intro z hz
      rcases List.mem_cons.mp hz with rfl | hz
      · exact hasymm _ _ hxy
      · cases hzx : comp z x with
        | false => rfl
        | true =>
          have := htrans z x y hzx hxy
          rw [hl.1 z hz] at this
          exact absurd this (by simp)
    · rename_i hxy
      refine List.pairwise_cons.mpr ⟨?_, ih hl.2⟩
      intro z hz
      rcases List.mem_cons.mp ((std.sortInsert_perm comp x ys).subset hz) with rfl | hz
      · simpa using hxy
      · exact hl.1 z hz

theorem std.sort_pairwise {β : Type} (comp : β → β → Bool)
    (hasymm : ∀ a b, comp a b = true → comp b a = false)
    (htrans : ∀ a b c, comp a b = true → comp b c = true → comp a c = true)
    (l : List β) : (std.sort comp l).Pairwise (fun a b => comp b a = false) := by
  induction l with
  | nil => simp [std.sort]
  | cons x xs ih =>
    unfold std.sort
    exact std.sortInsert_pairwise comp hasymm htrans x _ ih

theorem main.selectCircles_foldl {α : Type} (acc : List (Circle α)) (curves : List (Curve3D α)) :
    curves.foldl
      (fun circles curve =>
        match curve.dynamicCastCircle with
        | some c => circles ++ [c]
        | none => circles)
      acc = acc ++ curves.filterMap Curve3D.dynamicCastCircle := by
  induction curves generalizing acc with
  | nil => simp
  | cons c cs ih =>
    rw [List.foldl_cons, ih]
    cases h : c.dynamicCastCircle <;> simp [List.filterMap_cons, h]

theorem main.selectCircles_eq {α : Type} (curves : List (Curve3D α)) :
    main.selectCircles curves = curves.filterMap Curve3D.dynamicCastCircle := by
  unfold main.selectCircles
  rw [main.selectCircles_foldl]
  simp

section Lemmas
variable {α : Type} [LinearOrderedField α]

theorem main.sumRadii_foldl (acc : α) (circles : List (Circle α)) :
    circles.foldl (fun totalRadiusSum circle => totalRadiusSum + circle.getRadius) acc
      = acc + (circles.map Circle.getRadius).sum := by
  induction circles generalizing acc with
  | nil => simp
  | cons c cs ih =>
    rw [List.foldl_cons, ih]
    simp [add_assoc]

theorem main.sumRadii_eq (circles : List (Circle α)) :
    main.sumRadii circles = (circles.map Circle.getRadius).sum := by
  unfold main.sumRadii
  rw [main.sumRadii_foldl]
  norm_num

theorem main.sumRadii_perm {l₁ l₂ : List (Circle α)} (h : l₁.Perm l₂) :
    main.sumRadii l₁ = main.sumRadii l₂ := by
  rw [main.sumRadii_eq, main.sumRadii_eq]
  exact (h.map _).sum_eq

theorem main.comparator_asymm (a b : Circle α) :
    main.comparator a b = true → main.comparator b a = false := by
  unfold main.comparator
  intro h
  have h1 : a.getRadius < b.getRadius := of_decide_eq_true h
  exact decide_eq_false (not_lt.mpr h1.le)

theorem main.comparator_trans (a b c : Circle α) :
    main.comparator a b = true → main.comparator b c = true → main.comparator a c = true := by
  unfold main.comparator
  intro h1 h2
  exact decide_eq_true ((of_decide_eq_true h1).trans (of_decide_eq_true h2))

theorem main.circles_perm (curves : List (Curve3D α)) :
    (main.circles curves).Perm (curves.filterMap Curve3D.dynamicCastCircle) := by
  unfold main.circles
  rw [← main.selectCircles_eq]
  exact std.sort_perm _ _

theorem main.circles_sorted (curves : List (Curve3D α)) :
    (main.circles curves).Pairwise (fun a b => a.getRadius ≤ b.getRadius) := by
  unfold main.circles
  refine (std.sort_pairwise main.comparator main.comparator_asymm main.comparator_trans _).imp ?_
  intro a b h
  unfold main.comparator at h
  exact not_lt.mp (of_decide_eq_false h)

theorem main.totalRadiusSum_eq (curves : List (Curve3D α)) :
    main.totalRadiusSum curves
      = ((curves.filterMap Curve3D.dynamicCastCircle).map Circle.getRadius).sum := by
  unfold main.totalRadiusSum
  rw [main.sumRadii_perm (main.circles_perm curves), main.sumRadii_eq]

end Lemmas

/-! ## The aggregation pass -/

section Aggregation
variable {α : Type} [LinearOrderedField α]

/-- C1: for every scene the total of the aggregation pass (filter to Circle, sort by radius,
fold with `+` from `0.0`) is the sum of `getRadius()` over the Circle-variant curves of the
scene in scene order; the same holds with the sort step left out, and the total is the sum
over the whole scene of the radius for a Circle and of nothing for an Ellipse or a Helix. -/
theorem aggregation_sum_eq_sum_of_circle_radii (scene : List (Curve3D α)) :
    main.totalRadiusSum scene
        = ((scene.filterMap Curve3D.dynamicCastCircle).map Circle.getRadius).sum
      ∧ main.totalRadiusSum scene = main.sumRadii (main.selectCircles scene)
      ∧ main.totalRadiusSum scene
        = (scene.map (fun curve =>
            match curve with
            | Curve3D.circle c => c.getRadius
            | Curve3D.ellipse _ => 0
            | Curve3D.helix _ => 0)).sum := by
  refine ⟨main.totalRadiusSum_eq scene, ?_, ?_⟩
  · rw [main.totalRadiusSum_eq, main.sumRadii_eq, main.selectCircles_eq]
  · rw [main.totalRadiusSum_eq]
    induction scene with
    | nil => simp
    | cons c cs ih =>
      cases c <;> simp [List.filterMap_cons, Curve3D.dynamicCastCircle, ih]

/-- C2: for every scene the vector of circles after the sort step is in non-decreasing order
of `getRadius()` and is a permutation of the Circle-variant curves selected from the scene;
circles of radii 3, 1, 2 come out in the order 1, 2, 3 with sum 6. -/
theorem circles_sorted_and_perm :
    (∀ scene : List (Curve3D α),
        (main.circles scene).Pairwise (fun a b => a.getRadius ≤ b.getRadius)
      ∧ (main.circles scene).Perm (scene.filterMap Curve3D.dynamicCastCircle))
    ∧ main.circles [Curve3D.circle (⟨3.0⟩ : Circle α), Curve3D.circle ⟨1.0⟩, Curve3D.circle ⟨2.0⟩]
        = [⟨1.0⟩, ⟨2.0⟩, ⟨3.0⟩]
    ∧ main.totalRadiusSum
        [Curve3D.circle (⟨3.0⟩ : Circle α), Curve3D.circle ⟨1.0⟩, Curve3D.circle ⟨2.0⟩] = 6.0 := by
  refine ⟨fun scene => ⟨main.circles_sorted scene, main.circles_perm scene⟩, ?_, ?_⟩
  · norm_num [main.circles, main.selectCircles, Curve3D.dynamicCastCircle, std.sort,
      std.sortInsert, main.comparator, Circle.getRadius]
  · norm_num [main.totalRadiusSum, main.sumRadii, main.circles, main.selectCircles,
      Curve3D.dynamicCastCircle, std.sort, std.sortInsert, main.comparator, Circle.getRadius]

/-- C3: for every scene without a Circle-variant curve the aggregation pass returns the
total `0.0`. -/
theorem aggregation_no_circle_zero (scene : List (Curve3D α))
    (h : ∀ c : Circle α, Curve3D.circle c ∉ scene) :
    main.selectCircles scene = [] ∧ main.circles scene = [] ∧ main.totalRadiusSum scene = 0.0 := by
  have hsel : main.selectCircles scene = [] := by
    rw [main.selectCircles_eq, List.filterMap_eq_nil_iff]
    intro c hc
    cases c with
    | circle k => exact absurd hc (h k)
    | ellipse e => rfl
    | helix k => rfl
  refine ⟨hsel, ?_, ?_⟩
  · simp [main.circles, hsel, std.sort]
  · simp [main.totalRadiusSum, main.circles, hsel, std.sort, main.sumRadii]

/-- Witness for C3: a scene of one ellipse and one helix. -/
theorem aggregation_no_circle_zero_witness :
    (∀ c : Circle ℚ, Curve3D.circle c ∉ [Curve3D.ellipse ⟨1, 2⟩, Curve3D.helix ⟨1, 2⟩])
      ∧ main.totalRadiusSum [Curve3D.ellipse (⟨1, 2⟩ : Ellipse ℚ), Curve3D.helix ⟨1, 2⟩] = 0.0 :=
  ⟨by simp, (aggregation_no_circle_zero _ (by simp)).2.2⟩

end Aggregation

/-! ## The scene generator -/

section Generator
variable {α : Type} [LinearOrderedField α]

theorem main.choice_cases (r : Nat) :
    main.choice r = 0 ∨ main.choice r = 1 ∨ main.choice r = 2 := by
  unfold main.choice
  omega

theorem main.slot_length (RAND_MAX : Nat) (g : RandState) (curves : List (Curve3D α)) :
    (main.slot RAND_MAX g curves).2.length = curves.length + 1 := by
  unfold main.slot
  simp only [rand]
  rcases main.choice_cases (g 2) with h | h | h <;> simp [h]

theorem main.generationLoop_length (RAND_MAX : Nat) (n : Nat) (g : RandState)
    (curves : List (Curve3D α)) :
    (main.generationLoop RAND_MAX n g curves).2.length = curves.length + n := by
  induction n generalizing g curves with
  | zero => simp [main.generationLoop]
  | succ n ih =>
    unfold main.generationLoop
    simp only []
    rw [ih, main.slot_length]
    omega

/-- C4: for every sequence of values returned by `rand()` the generated scene has exactly 10
curves and each of them is a Circle, an Ellipse or a Helix; the selector `rand() % 3` is
always 0, 1 or 2, so every pass through the `switch` appends one curve. -/
theorem generator_ten_curves (RAND_MAX : Nat) (g : RandState) :
    (main.curves RAND_MAX g : List (Curve3D α)).length = 10
      ∧ (∀ curve ∈ (main.curves RAND_MAX g : List (Curve3D α)),
          (∃ c, curve = Curve3D.circle c) ∨ (∃ e, curve = Curve3D.ellipse e)
            ∨ (∃ h, curve = Curve3D.helix h))
      ∧ (∀ r : Nat, main.choice r = 0 ∨ main.choice r = 1 ∨ main.choice r = 2)
      ∧ (∀ (g' : RandState) (curves : List (Curve3D α)),
          (main.slot RAND_MAX g' curves).2.length = curves.length + 1) := by
  refine ⟨?_, ?_, main.choice_cases, main.slot_length RAND_MAX⟩
  · unfold main.curves
    rw [main.generationLoop_length]
    rfl
  · intro curve _
    cases curve with
    | circle c => exact Or.inl ⟨c, rfl⟩
    | ellipse e => exact Or.inr (Or.inl ⟨e, rfl⟩)
    | helix h => exact Or.inr (Or.inr ⟨h, rfl⟩)

theorem main.ratio_bounds (RAND_MAX r : Nat) (hmax : 0 < RAND_MAX) (hr : r ≤ RAND_MAX) :
    (0 : α) ≤ (r : α) / (RAND_MAX : α) ∧ (r : α) / (RAND_MAX : α) ≤ 1
      ∧ ((r : α) / (RAND_MAX : α) < 1 ↔ r < RAND_MAX) := by
  have hpos : (0 : α) < (RAND_MAX : α) := by exact_mod_cast hmax
  refine ⟨div_nonneg (Nat.cast_nonneg r) hpos.le, ?_, ?_⟩
  · rw [div_le_one hpos]
    exact_mod_cast hr
  · rw [div_lt_one hpos]
    exact Nat.cast_lt

/-- C5 as stated fails: when `rand()` returns `RAND_MAX` (here 32767) the radius drawn is
11 and the step drawn is 0.6, the excluded right ends of the two intervals. -/
theorem radius_step_half_open_counterexample :
    (main.radius 32767 32767 : ℚ) = 11 ∧ ¬ ((main.radius 32767 32767 : ℚ) < 11)
      ∧ (main.step 32767 32767 : ℚ) = 0.6 ∧ ¬ ((main.step 32767 32767 : ℚ) < 0.6) := by
  norm_num [main.radius, main.step]

/-- C5, amended: for `RAND_MAX > 0` and a value `r` of `rand()` in `0..RAND_MAX`, the radius
drawn lies in the closed interval [1, 11] and the step drawn in the closed interval
[0.1, 0.6]; each stays below the right end exactly when `r < RAND_MAX`. -/
theorem radius_step_closed_bounds (RAND_MAX r : Nat) (hmax : 0 < RAND_MAX)
    (hr : r ≤ RAND_MAX) :
    ((1.0 : α) ≤ main.radius RAND_MAX r ∧ (main.radius RAND_MAX r : α) ≤ 11.0)
      ∧ ((main.radius RAND_MAX r : α) < 11.0 ↔ r < RAND_MAX)
      ∧ ((0.1 : α) ≤ main.step RAND_MAX r ∧ (main.step RAND_MAX r : α) ≤ 0.6)
      ∧ ((main.step RAND_MAX r : α) < 0.6 ↔ r < RAND_MAX) := by
  obtain ⟨h0, h1, hlt⟩ := main.ratio_bounds (α := α) RAND_MAX r hmax hr
  unfold main.radius main.step
  refine ⟨⟨?_, ?_⟩, ?_, ⟨?_, ?_⟩, ?_⟩
  · norm_num
    linarith
  · norm_num
    linarith
  · rw [← hlt]
    norm_num
    constructor <;> intro h <;> linarith
  · norm_num
    linarith
  · norm_num
    linarith
  · rw [← hlt]
    norm_num
    constructor <;> intro h <;> linarith

/-- Witness for the amended C5: `RAND_MAX = 32767` and the value 16384. -/
theorem radius_step_closed_bounds_witness :
    (0 < 32767 ∧ 16384 ≤ 32767)
      ∧ ((1.0 : ℚ) ≤ main.radius 32767 16384 ∧ (main.radius 32767 16384 : ℚ) ≤ 11.0)
      ∧ ((0.1 : ℚ) ≤ main.step 32767 16384 ∧ (main.step 32767 16384 : ℚ) ≤ 0.6) :=
  ⟨by decide,
    (radius_step_closed_bounds 32767 16384 (by decide) (by decide)).1,
    (radius_step_closed_bounds 32767 16384 (by decide) (by decide)).2.2.1⟩

end Generator

/-! ## The curve variants over the reals -/

section Curves

/-- C6: for Circle, Ellipse and Helix, for all shape parameters and every real `t`, each
component of `getDerivative(t)` is the derivative at `t` of the same component of
`getPoint`. -/
theorem getDerivative_is_derivative_of_getPoint (t : ℝ) :
    (∀ c : Circle ℝ,
        HasDerivAt (fun u => (c.getPoint Real.cos Real.sin u).x)
          (c.getDerivative Real.cos Real.sin t).x t
      ∧ HasDerivAt (fun u => (c.getPoint Real.cos Real.sin u).y)
          (c.getDerivative Real.cos Real.sin t).y t
      ∧ HasDerivAt (fun u => (c.getPoint Real.cos Real.sin u).z)
          (c.getDerivative Real.cos Real.sin t).z t)
    ∧ (∀ e : Ellipse ℝ,
        HasDerivAt (fun u => (e.getPoint Real.cos Real.sin u).x)
          (e.getDerivative Real.cos Real.sin t).x t
      ∧ HasDerivAt (fun u => (e.getPoint Real.cos Real.sin u).y)
          (e.getDerivative Real.cos Real.sin t).y t
      ∧ HasDerivAt (fun u => (e.getPoint Real.cos Real.sin u).z)
          (e.getDerivative Real.cos Real.sin t).z t)
    ∧ (∀ h : Helix ℝ,
        HasDerivAt (fun u => (h.getPoint Real.cos Real.sin u).x)
          (h.getDerivative Real.cos Real.sin t).x t
      ∧ HasDerivAt (fun u => (h.getPoint Real.cos Real.sin u).y)
          (h.getDerivative Real.cos Real.sin t).y t
      ∧ HasDerivAt (fun u => (h.getPoint Real.cos Real.sin u).z)
          (h.getDerivative Real.cos Real.sin t).z t) := by
  have hx : ∀ r : ℝ, HasDerivAt (fun u => r * Real.cos u) (-r * Real.sin t) t := by
    intro r
    have := (Real.hasDerivAt_cos t).const_mul r
    simpa [neg_mul, mul_neg] using this
  have hy : ∀ r : ℝ, HasDerivAt (fun u => r * Real.sin u) (r * Real.cos t) t :=
    fun r => (Real.hasDerivAt_sin t).const_mul r
  have hz : HasDerivAt (fun _ : ℝ => (0.0 : ℝ)) (0.0 : ℝ) t := by
    have := hasDerivAt_const t (0 : ℝ)
    norm_num
    exact this
  refine ⟨fun c => ⟨hx c.radius, hy c.radius, hz⟩, fun e => ⟨hx e.radiusX, hy e.radiusY, hz⟩,
    fun h => ⟨hx h.radius, hy h.radius, ?_⟩⟩
  have := ((hasDerivAt_id t).const_mul h.step).div_const (2 * (M_PI : ℝ))
  simpa [Helix.getPoint, Helix.getDerivative] using this

theorem Circle.getPoint_sq (r t : ℝ) :
    ((⟨r⟩ : Circle ℝ).getPoint Real.cos Real.sin t).x ^ 2
      + ((⟨r⟩ : Circle ℝ).getPoint Real.cos Real.sin t).y ^ 2 = r ^ 2 := by
  simp only [Circle.getPoint]
  linear_combination r ^ 2 * Real.cos_sq_add_sin_sq t

theorem Circle.getDerivative_sq (r t : ℝ) :
    ((⟨r⟩ : Circle ℝ).getDerivative Real.cos Real.sin t).x ^ 2
      + ((⟨r⟩ : Circle ℝ).getDerivative Real.cos Real.sin t).y ^ 2
      + ((⟨r⟩ : Circle ℝ).getDerivative Real.cos Real.sin t).z ^ 2 = r ^ 2 := by
  simp only [Circle.getDerivative]
  norm_num
  linear_combination r ^ 2 * Real.sin_sq_add_cos_sq t

/-- C7 as stated fails for a negative radius: the point of `Circle(-1)` at `t = 0` is
`(-1, 0, 0)`, at distance 1 from the origin, not -1. -/
theorem circle_point_distance_counterexample :
    (⟨-1⟩ : Circle ℝ).getPoint Real.cos Real.sin 0 = ⟨-1, 0, 0⟩
      ∧ Real.sqrt (((⟨-1⟩ : Circle ℝ).getPoint Real.cos Real.sin 0).x ^ 2
          + ((⟨-1⟩ : Circle ℝ).getPoint Real.cos Real.sin 0).y ^ 2) ≠ -1 := by
  constructor
  · norm_num [Circle.getPoint]
  · rw [Circle.getPoint_sq]
    norm_num

/-- C7, amended: for every radius `r` and every real `t` the point `p` of `Circle(r)` at `t`
lies at distance `|r|` from the origin in the xy-plane, and `p.z = 0`. -/
theorem circle_point_distance_abs (r t : ℝ) :
    Real.sqrt (((⟨r⟩ : Circle ℝ).getPoint Real.cos Real.sin t).x ^ 2
        + ((⟨r⟩ : Circle ℝ).getPoint Real.cos Real.sin t).y ^ 2) = |r|
      ∧ ((⟨r⟩ : Circle ℝ).getPoint Real.cos Real.sin t).z = 0 := by
  constructor
  · rw [Circle.getPoint_sq, Real.sqrt_sq_eq_abs]
  · norm_num [Circle.getPoint]

/-- C8 as stated fails for a negative radius: the derivative of `Circle(-1)` at `t = 0` is
`(0, -1, 0)`, of magnitude 1, not -1. -/
theorem circle_derivative_magnitude_counterexample :
    (⟨-1⟩ : Circle ℝ).getDerivative Real.cos Real.sin 0 = ⟨0, -1, 0⟩
      ∧ Real.sqrt (((⟨-1⟩ : Circle ℝ).getDerivative Real.cos Real.sin 0).x ^ 2
          + ((⟨-1⟩ : Circle ℝ).getDerivative Real.cos Real.sin 0).y ^ 2
          + ((⟨-1⟩ : Circle ℝ).getDerivative Real.cos Real.sin 0).z ^ 2) ≠ -1 := by
  constructor
  · norm_num [Circle.getDerivative]
  · rw [Circle.getDerivative_sq]
    norm_num

/-- C8, amended: for every radius `r` and every real `t` the vector `getDerivative(t)` of
`Circle(r)` has magnitude `|r|`. -/
theorem circle_derivative_magnitude_abs (r t : ℝ) :
    Real.sqrt (((⟨r⟩ : Circle ℝ).getDerivative Real.cos Real.sin t).x ^ 2
        + ((⟨r⟩ : Circle ℝ).getDerivative Real.cos Real.sin t).y ^ 2
        + ((⟨r⟩ : Circle ℝ).getDerivative Real.cos Real.sin t).z ^ 2) = |r| := by
  rw [Circle.getDerivative_sq, Real.sqrt_sq_eq_abs]

/-- C9: for every radius `r` and every real `t` the dot product of `getDerivative(t)` and
`getPoint(t)` of `Circle(r)` is 0. -/
theorem circle_derivative_orthogonal_to_point (r t : ℝ) :
    ((⟨r⟩ : Circle ℝ).getDerivative Real.cos Real.sin t).x
        * ((⟨r⟩ : Circle ℝ).getPoint Real.cos Real.sin t).x
      + ((⟨r⟩ : Circle ℝ).getDerivative Real.cos Real.sin t).y
        * ((⟨r⟩ : Circle ℝ).getPoint Real.cos Real.sin t).y
      + ((⟨r⟩ : Circle ℝ).getDerivative Real.cos Real.sin t).z
        * ((⟨r⟩ : Circle ℝ).getPoint Real.cos Real.sin t).z = 0 := by
  simp only [Circle.getDerivative, Circle.getPoint]
  norm_num
  ring

/-- C10: for every real `t` and all `a`, `b` different from 0, the point `p` of
`Ellipse(a, b)` at `t` satisfies `(p.x/a)^2 + (p.y/b)^2 = 1` and `p.z = 0`. -/
theorem ellipse_point_on_ellipse (a b t : ℝ) (ha : a ≠ 0) (hb : b ≠ 0) :
    (((⟨a, b⟩ : Ellipse ℝ).getPoint Real.cos Real.sin t).x / a) ^ 2
        + (((⟨a, b⟩ : Ellipse ℝ).getPoint Real.cos Real.sin t).y / b) ^ 2 = 1
      ∧ ((⟨a, b⟩ : Ellipse ℝ).getPoint Real.cos Real.sin t).z = 0 := by
  constructor
  · simp only [Ellipse.getPoint]
    rw [mul_div_cancel_left₀ _ ha, mul_div_cancel_left₀ _ hb]
    exact Real.cos_sq_add_sin_sq t
  · norm_num [Ellipse.getPoint]

/-- Witness for C10: `Ellipse(3, 1)` at `t = 0`. -/
theorem ellipse_point_on_ellipse_witness :
    ((3 : ℝ) ≠ 0 ∧ (1 : ℝ) ≠ 0)
      ∧ (((⟨3, 1⟩ : Ellipse ℝ).getPoint Real.cos Real.sin 0).x / 3) ^ 2
        + (((⟨3, 1⟩ : Ellipse ℝ).getPoint Real.cos Real.sin 0).y / 1) ^ 2 = 1
      ∧ ((⟨3, 1⟩ : Ellipse ℝ).getPoint Real.cos Real.sin 0).z = 0 :=
  ⟨⟨by norm_num, by norm_num⟩, ellipse_point_on_ellipse 3 1 0 (by norm_num) (by norm_num)⟩

/-! ### The constant `M_PI` and the full turn of the helix -/

theorem M_PI_pos : (0 : ℝ) < M_PI := by
  unfold M_PI
  norm_num

theorem Helix.getPoint_z (r s t : ℝ) :
    ((⟨r, s⟩ : Helix ℝ).getPoint Real.cos Real.sin t).z = s * t / (2 * M_PI) := rfl

theorem Helix.z_advance_two_pi (r s t : ℝ) :
    ((⟨r, s⟩ : Helix ℝ).getPoint Real.cos Real.sin (t + 2 * Real.pi)).z
      - ((⟨r, s⟩ : Helix ℝ).getPoint Real.cos Real.sin t).z = s * (Real.pi / M_PI) := by
  have h := M_PI_pos.ne'
  rw [Helix.getPoint_z, Helix.getPoint_z]
  field_simp
  ring

/-- C12: for every radius `r` the point of `Circle(r)` at 0 is `(r, 0, 0)` and its
derivative at 0 is `(0, r, 0)`, instances of `(r cos t, r sin t, 0)` and
`(-r sin t, r cos t, 0)`; for `Circle(2.0)` these are `(2.0, 0.0, 0.0)` and
`(0.0, 2.0, 0.0)`. -/
theorem circle_at_zero (r : ℝ) :
    ((⟨r⟩ : Circle ℝ).getPoint Real.cos Real.sin 0 = ⟨r, 0, 0⟩
      ∧ (⟨r⟩ : Circle ℝ).getDerivative Real.cos Real.sin 0 = ⟨0, r, 0⟩)
    ∧ (∀ t : ℝ,
        (⟨r⟩ : Circle ℝ).getPoint Real.cos Real.sin t
          = ⟨r * Real.cos t, r * Real.sin t, 0⟩
      ∧ (⟨r⟩ : Circle ℝ).getDerivative Real.cos Real.sin t
          = ⟨-r * Real.sin t, r * Real.cos t, 0⟩)
    ∧ ((⟨2.0⟩ : Circle ℝ).getPoint Real.cos Real.sin 0.0 = ⟨2.0, 0.0, 0.0⟩
      ∧ (⟨2.0⟩ : Circle ℝ).getDerivative Real.cos Real.sin 0.0 = ⟨0.0, 2.0, 0.0⟩) := by
  refine ⟨⟨?_, ?_⟩, fun t => ⟨?_, ?_⟩, ?_, ?_⟩
  · norm_num [Circle.getPoint]
  · norm_num [Circle.getDerivative]
  · norm_num [Circle.getPoint]
  · norm_num [Circle.getDerivative]
  · norm_num [Circle.getPoint]
  · norm_num [Circle.getDerivative]

/-- C14: for every `a` and `b` the point of `Ellipse(a, b)` at `pi / 2` is `(0, b, 0)`; for
`Ellipse(3.0, 1.0)` it is `(0.0, 1.0, 0.0)`. -/
theorem ellipse_at_quarter_turn (a b : ℝ) :
    (⟨a, b⟩ : Ellipse ℝ).getPoint Real.cos Real.sin (Real.pi / 2) = ⟨0, b, 0⟩
      ∧ (⟨3.0, 1.0⟩ : Ellipse ℝ).getPoint Real.cos Real.sin (Real.pi / 2)
        = ⟨0.0, 1.0, 0.0⟩ := by
  constructor
  · norm_num [Ellipse.getPoint]
  · norm_num [Ellipse.getPoint]

/-- C15: Circle and Ellipse have period `2 * pi` in both `getPoint` and `getDerivative`, for
all shape parameters and every real `t`. For Helix the x and y coordinates have period
`2 * pi`, while for every step `s` other than 0 the z coordinate exceeds every bound in
absolute value, and the point at `t + 2 * pi` is never the point at `t`. -/
theorem periodicity_of_variants :
    (∀ (c : Circle ℝ) (t : ℝ),
        c.getPoint Real.cos Real.sin (t + 2 * Real.pi) = c.getPoint Real.cos Real.sin t
      ∧ c.getDerivative Real.cos Real.sin (t + 2 * Real.pi)
          = c.getDerivative Real.cos Real.sin t)
    ∧ (∀ (e : Ellipse ℝ) (t : ℝ),
        e.getPoint Real.cos Real.sin (t + 2 * Real.pi) = e.getPoint Real.cos Real.sin t
      ∧ e.getDerivative Real.cos Real.sin (t + 2 * Real.pi)
          = e.getDerivative Real.cos Real.sin t)
    ∧ (∀ (h : Helix ℝ) (t : ℝ),
        (h.getPoint Real.cos Real.sin (t + 2 * Real.pi)).x
          = (h.getPoint Real.cos Real.sin t).x
      ∧ (h.getPoint Real.cos Real.sin (t + 2 * Real.pi)).y
          = (h.getPoint Real.cos Real.sin t).y)
    ∧ (∀ r s : ℝ, s ≠ 0 →
        (∀ B : ℝ, ∃ t : ℝ, B < |((⟨r, s⟩ : Helix ℝ).getPoint Real.cos Real.sin t).z|)
      ∧ (∀ t : ℝ, (⟨r, s⟩ : Helix ℝ).getPoint Real.cos Real.sin (t + 2 * Real.pi)
          ≠ (⟨r, s⟩ : Helix ℝ).getPoint Real.cos Real.sin t)) := by
  refine ⟨fun c t => ⟨?_, ?_⟩, fun e t => ⟨?_, ?_⟩, fun h t => ⟨?_, ?_⟩, fun r s hs => ⟨?_, ?_⟩⟩
  · simp only [Circle.getPoint, Real.cos_add_two_pi, Real.sin_add_two_pi]
  · simp only [Circle.getDerivative, Real.cos_add_two_pi, Real.sin_add_two_pi]
  · simp only [Ellipse.getPoint, Real.cos_add_two_pi, Real.sin_add_two_pi]
  · simp only [Ellipse.getDerivative, Real.cos_add_two_pi, Real.sin_add_two_pi]
  · simp only [Helix.getPoint, Real.cos_add_two_pi]
  · simp only [Helix.getPoint, Real.sin_add_two_pi]
  · intro B
    have hM := M_PI_pos.ne'
    refine ⟨(|B| + 1) * (2 * M_PI) / s, ?_⟩
    have hz : ((⟨r, s⟩ : Helix ℝ).getPoint Real.cos Real.sin
        ((|B| + 1) * (2 * M_PI) / s)).z = |B| + 1 := by
      rw [Helix.getPoint_z]
      field_simp
    rw [hz, abs_of_pos (by positivity)]
    linarith [le_abs_self B]
  · intro t heq
    have hz := Helix.z_advance_two_pi r s t
    rw [heq, sub_self] at hz
    have hM := M_PI_pos
    have hpi := Real.pi_pos
    rcases mul_eq_zero.mp hz.symm with h0 | h0
    · exact hs h0
    · exact (div_pos hpi hM).ne' h0

/-- Witness for C15: `Helix(1, 1)` against the bound 100. -/
theorem periodicity_of_variants_witness :
    (1 : ℝ) ≠ 0
      ∧ (∃ t : ℝ, (100 : ℝ) < |((⟨1, 1⟩ : Helix ℝ).getPoint Real.cos Real.sin t).z|)
      ∧ (⟨1, 1⟩ : Helix ℝ).getPoint Real.cos Real.sin (0 + 2 * Real.pi)
          ≠ (⟨1, 1⟩ : Helix ℝ).getPoint Real.cos Real.sin 0 :=
  ⟨one_ne_zero, (periodicity_of_variants.2.2.2 1 1 one_ne_zero).1 100,
    (periodicity_of_variants.2.2.2 1 1 one_ne_zero).2 0⟩

/-- C18: the variants agree where their shapes coincide: for every `r` and `t`,
`Ellipse(r, r)` has the point and the derivative of `Circle(r)`, and so has `Helix(r, 0)`
(`Point3D` and `Vector3D` compared by their three coordinates). This holds for any field of
scalars and any functions in the place of `std::cos` and `std::sin`. -/
theorem variants_agree_where_shapes_coincide {α : Type} [Field α] (cos sin : α → α)
    (r t : α) :
    ((⟨r, r⟩ : Ellipse α).getPoint cos sin t = (⟨r⟩ : Circle α).getPoint cos sin t
      ∧ (⟨r, r⟩ : Ellipse α).getDerivative cos sin t
          = (⟨r⟩ : Circle α).getDerivative cos sin t)
    ∧ ((⟨r, 0⟩ : Helix α).getPoint cos sin t = (⟨r⟩ : Circle α).getPoint cos sin t
      ∧ (⟨r, 0⟩ : Helix α).getDerivative cos sin t
          = (⟨r⟩ : Circle α).getDerivative cos sin t) := by
  refine ⟨⟨rfl, rfl⟩, ?_, ?_⟩
  · norm_num [Helix.getPoint, Circle.getPoint]
  · norm_num [Helix.getDerivative, Circle.getDerivative]

/-- C19: for Circle and Ellipse the derivative at `t` is the point at `t + pi / 2`,
coordinate by coordinate; hence for `Circle(r)` the derivative is `(-p.y, p.x, 0)` with `p`
the point at `t`. -/
theorem derivative_is_point_quarter_turn_ahead (t : ℝ) :
    (∀ c : Circle ℝ,
        (c.getDerivative Real.cos Real.sin t).x
          = (c.getPoint Real.cos Real.sin (t + Real.pi / 2)).x
      ∧ (c.getDerivative Real.cos Real.sin t).y
          = (c.getPoint Real.cos Real.sin (t + Real.pi / 2)).y
      ∧ (c.getDerivative Real.cos Real.sin t).z
          = (c.getPoint Real.cos Real.sin (t + Real.pi / 2)).z)
    ∧ (∀ e : Ellipse ℝ,
        (e.getDerivative Real.cos Real.sin t).x
          = (e.getPoint Real.cos Real.sin (t + Real.pi / 2)).x
      ∧ (e.getDerivative Real.cos Real.sin t).y
          = (e.getPoint Real.cos Real.sin (t + Real.pi / 2)).y
      ∧ (e.getDerivative Real.cos Real.sin t).z
          = (e.getPoint Real.cos Real.sin (t + Real.pi / 2)).z)
    ∧ (∀ c : Circle ℝ,
        c.getDerivative Real.cos Real.sin t
          = ⟨-(c.getPoint Real.cos Real.sin t).y, (c.getPoint Real.cos Real.sin t).x, 0⟩) := by
  refine ⟨fun c => ⟨?_, ?_, rfl⟩, fun e => ⟨?_, ?_, rfl⟩, fun c => ?_⟩
  · simp [Circle.getDerivative, Circle.getPoint, Real.cos_add_pi_div_two]
  · simp [Circle.getDerivative, Circle.getPoint, Real.sin_add_pi_div_two]
  · simp [Ellipse.getDerivative, Ellipse.getPoint, Real.cos_add_pi_div_two]
  · simp [Ellipse.getDerivative, Ellipse.getPoint, Real.sin_add_pi_div_two]
  · norm_num [Circle.getDerivative, Circle.getPoint]

end Curves

/-! ## The scene slot by slot -/

section Slots
variable {α : Type} [LinearOrderedField α]

theorem main.slot_eq (RAND_MAX : Nat) (g : RandState) (curves : List (Curve3D α)) :
    main.slot RAND_MAX g curves
      = (fun n => g (n + 3),
          curves ++ [if main.choice (g 2) = 0 then
              Curve3D.circle ⟨main.radius RAND_MAX (g 0)⟩
            else if main.choice (g 2) = 1 then
              Curve3D.ellipse ⟨main.radius RAND_MAX (g 0), main.radius RAND_MAX (g 0) * 0.5⟩
            else
              Curve3D.helix ⟨main.radius RAND_MAX (g 0), main.step RAND_MAX (g 1)⟩]) := by
  unfold main.slot
  simp only [rand]
  rcases main.choice_cases (g 2) with h | h | h <;> simp [h]

/-- The generation loop over `n` slots, for any description `f` of the curve that one slot
appends from its three values of `rand()`. -/
theorem main.generationLoop_eq (RAND_MAX : Nat) (f : Nat → Nat → Nat → Curve3D α)
    (hslot : ∀ (g : RandState) (curves : List (Curve3D α)),
      main.slot RAND_MAX g curves = (fun n => g (n + 3), curves ++ [f (g 0) (g 1) (g 2)]))
    (n : Nat) (g : RandState) (curves : List (Curve3D α)) :
    main.generationLoop RAND_MAX n g curves
      = (fun k => g (k + 3 * n),
          curves ++ (List.range n).map
            (fun i => f (g (3 * i)) (g (3 * i + 1)) (g (3 * i + 2)))) := by
  induction n generalizing g curves with
  | zero => simp [main.generationLoop]
  | succ n ih =>
    unfold main.generationLoop
    rw [hslot]
    simp only []
    rw [ih, List.range_succ_eq_map, List.map_cons, List.map_map]
    refine Prod.ext ?_ ?_
    · funext k
      show g (k + 3 * n + 3) = g (k + 3 * (n + 1))
      rfl
    · simp only [List.append_assoc, List.singleton_append, Function.comp_def]
      rfl

theorem main.curves_eq (RAND_MAX : Nat) (g : RandState) :
    (main.curves RAND_MAX g : List (Curve3D α))
      = (List.range 10).map (fun i =>
          if main.choice (g (3 * i + 2)) = 0 then
            Curve3D.circle ⟨main.radius RAND_MAX (g (3 * i))⟩
          else if main.choice (g (3 * i + 2)) = 1 then
            Curve3D.ellipse
              ⟨main.radius RAND_MAX (g (3 * i)), main.radius RAND_MAX (g (3 * i)) * 0.5⟩
          else
            Curve3D.helix
              ⟨main.radius RAND_MAX (g (3 * i)), main.step RAND_MAX (g (3 * i + 1))⟩) := by
  unfold main.curves
  rw [main.generationLoop_eq RAND_MAX
    (fun a b c =>
      if main.choice c = 0 then Curve3D.circle ⟨main.radius RAND_MAX a⟩
      else if main.choice c = 1 then
        Curve3D.ellipse ⟨main.radius RAND_MAX a, main.radius RAND_MAX a * 0.5⟩
      else Curve3D.helix ⟨main.radius RAND_MAX a, main.step RAND_MAX b⟩)
    (fun g curves => main.slot_eq RAND_MAX g curves)]
  simp

/-- C16: in every slot, `radius` is `r1 / RAND_MAX * 10.0 + 1.0` and `step` is
`r2 / RAND_MAX * 0.5 + 0.1` for the first and second value `r1`, `r2` of `rand()`, and the
selector is `r3 % 3` for the third. Selector 0 appends `Circle(radius)` (whose `getRadius()`
is `radius`), selector 1 appends `Ellipse(radius, radius * 0.5)` and selector 2 appends
`Helix(radius, step)`; the second value does not matter unless the selector is 2; and the
i-th curve of the generated scene is built in this way from the values `3 * i`, `3 * i + 1`
and `3 * i + 2` of the stream. -/
theorem slot_builds_variant_from_triple (RAND_MAX : Nat) (g : RandState) :
    ((∀ r : Nat, (main.radius RAND_MAX r : α) = (r : α) / (RAND_MAX : α) * 10.0 + 1.0)
      ∧ (∀ r : Nat, (main.step RAND_MAX r : α) = (r : α) / (RAND_MAX : α) * 0.5 + 0.1)
      ∧ (∀ r : Nat, main.choice r = r % 3))
    ∧ (∀ curves : List (Curve3D α),
        (g 2 % 3 = 0 →
          main.slot RAND_MAX g curves
            = (fun n => g (n + 3), curves ++ [Curve3D.circle ⟨main.radius RAND_MAX (g 0)⟩]))
      ∧ (g 2 % 3 = 1 →
          main.slot RAND_MAX g curves
            = (fun n => g (n + 3),
                curves ++ [Curve3D.ellipse
                  ⟨main.radius RAND_MAX (g 0), main.radius RAND_MAX (g 0) * 0.5⟩]))
      ∧ (g 2 % 3 = 2 →
          main.slot RAND_MAX g curves
            = (fun n => g (n + 3),
                curves ++ [Curve3D.helix
                  ⟨main.radius RAND_MAX (g 0), main.step RAND_MAX (g 1)⟩])))
    ∧ (⟨main.radius RAND_MAX (g 0)⟩ : Circle α).getRadius = main.radius RAND_MAX (g 0)
    ∧ (∀ (g' : RandState) (curves : List (Curve3D α)),
        g' 0 = g 0 → g' 2 = g 2 → g 2 % 3 ≠ 2 →
          (main.slot RAND_MAX g' curves).2 = (main.slot RAND_MAX g curves).2)
    ∧ (main.curves RAND_MAX g : List (Curve3D α))
      = (List.range 10).map (fun i =>
          if g (3 * i + 2) % 3 = 0 then
            Curve3D.circle ⟨main.radius RAND_MAX (g (3 * i))⟩
          else if g (3 * i + 2) % 3 = 1 then
            Curve3D.ellipse
              ⟨main.radius RAND_MAX (g (3 * i)), main.radius RAND_MAX (g (3 * i)) * 0.5⟩
          else
            Curve3D.helix
              ⟨main.radius RAND_MAX (g (3 * i)), main.step RAND_MAX (g (3 * i + 1))⟩) := by
  have hch : ∀ r : Nat, main.choice r = r % 3 := fun _ => rfl
  refine ⟨⟨fun _ => rfl, fun _ => rfl, hch⟩,
    fun curves => ⟨fun h => ?_, fun h => ?_, fun h => ?_⟩, rfl, ?_, ?_⟩
  · rw [main.slot_eq, hch, h]
    rfl
  · rw [main.slot_eq, hch, h]
    rfl
  · rw [main.slot_eq, hch, h]
    rfl
  · intro g' curves h0 h2 hne
    rw [main.slot_eq, main.slot_eq, h0, h2, hch]
    have hlt : g 2 % 3 < 3 := Nat.mod_lt _ (by decide)
    have h01 : g 2 % 3 = 0 ∨ g 2 % 3 = 1 := by omega
    rcases h01 with h | h
    · simp [h]
    · simp [h]
  · rw [main.curves_eq]
    rfl

/-- Witness for C16, `RAND_MAX = 32767`: the streams 5, 7, 9, ..., then 6, 8, 10, ..., then
7, 9, 11, ... have the selectors `9 % 3 = 0`, `10 % 3 = 1` and `11 % 3 = 2` in their first
slot, which appends a circle, an ellipse and a helix in turn. -/
theorem slot_builds_variant_from_triple_witness :
    ((fun n => 2 * n + 5) 2 % 3 = 0
      ∧ (main.slot 32767 (fun n => 2 * n + 5) ([] : List (Curve3D ℚ))).2
          = [Curve3D.circle ⟨main.radius 32767 5⟩])
    ∧ ((fun n => 2 * n + 6) 2 % 3 = 1
      ∧ (main.slot 32767 (fun n => 2 * n + 6) ([] : List (Curve3D ℚ))).2
          = [Curve3D.ellipse ⟨main.radius 32767 6, main.radius 32767 6 * 0.5⟩])
    ∧ ((fun n => 2 * n + 7) 2 % 3 = 2
      ∧ (main.slot 32767 (fun n => 2 * n + 7) ([] : List (Curve3D ℚ))).2
          = [Curve3D.helix ⟨main.radius 32767 7, main.step 32767 9⟩])
    ∧ ((main.radius 32767 5 : ℚ) = 32817 / 32767 ∧ (main.step 32767 9 : ℚ) = 32812 / 327670) :=
  ⟨⟨by decide,
      congrArg Prod.snd
        (((slot_builds_variant_from_triple 32767 (fun n => 2 * n + 5)).2.1 []).1 (by decide))⟩,
    ⟨by decide,
      congrArg Prod.snd
        (((slot_builds_variant_from_triple 32767 (fun n => 2 * n + 6)).2.1 []).2.1
          (by decide))⟩,
    ⟨by decide,
      congrArg Prod.snd
        (((slot_builds_variant_from_triple 32767 (fun n => 2 * n + 7)).2.1 []).2.2
          (by decide))⟩,
    by norm_num [main.radius, main.step]⟩

end Slots

/-! ## The evaluation pass and the output -/

section Output
variable {α : Type} [LinearOrderedField α]

theorem main.evaluationPass_foldl (cos sin : α → α) (curves : List (Curve3D α))
    (st : ProgramState α) :
    curves.foldl
      (fun st curve =>
        let point := curve.getPoint cos sin main.t
        let derivative := curve.getDerivative cos sin main.t
        { st with cout := st.cout ++ [Line.pointDerivative point derivative] })
      st
      = { curves := st.curves,
          cout := st.cout ++ curves.map (fun curve =>
            Line.pointDerivative (curve.getPoint cos sin main.t)
              (curve.getDerivative cos sin main.t)) } := by
  induction curves generalizing st with
  | nil => simp
  | cons c cs ih =>
    rw [List.foldl_cons, ih]
    simp

theorem main.evaluationPass_eq (cos sin : α → α) (s : ProgramState α) :
    main.evaluationPass cos sin s
      = { curves := s.curves,
          cout := s.cout ++ s.curves.map (fun curve =>
            Line.pointDerivative (curve.getPoint cos sin main.t)
              (curve.getDerivative cos sin main.t)) } := by
  unfold main.evaluationPass
  exact main.evaluationPass_foldl cos sin s.curves s

/-- C17: for every scene the evaluation pass writes exactly one line per curve, in scene
order: started on an empty output it leaves as many lines as the scene has curves, the i-th
made of the point and the derivative of the i-th curve at the fixed parameter
`t = M_PI / 4.0`; it leaves the scene as it was, and so does the aggregation pass, whose single
total line comes after all of them; a generated scene gives 10 lines followed by 1, and the
exit code is 0. -/
theorem evaluation_pass_one_line_per_curve (cos sin : α → α) (scene : List (Curve3D α))
    (RAND_MAX : Nat) (g : RandState) :
    ((main.evaluationPass cos sin ⟨scene, []⟩).cout.length = scene.length
      ∧ (∀ i : Nat, (main.evaluationPass cos sin ⟨scene, []⟩).cout[i]?
          = (scene[i]?).map (fun curve =>
              Line.pointDerivative (curve.getPoint cos sin (M_PI / 4.0))
                (curve.getDerivative cos sin (M_PI / 4.0))))
      ∧ (main.evaluationPass cos sin ⟨scene, []⟩).curves = scene)
    ∧ ((main.aggregationPass (main.evaluationPass cos sin ⟨scene, []⟩)).curves = scene
      ∧ (main.aggregationPass (main.evaluationPass cos sin ⟨scene, []⟩)).cout
          = scene.map (fun curve =>
              Line.pointDerivative (curve.getPoint cos sin (M_PI / 4.0))
                (curve.getDerivative cos sin (M_PI / 4.0)))
            ++ [Line.totalSumOfRadii (main.totalRadiusSum scene)])
    ∧ ((main.run RAND_MAX cos sin g).1.cout
          = (main.curves RAND_MAX g).map (fun curve =>
              Line.pointDerivative (curve.getPoint cos sin (M_PI / 4.0))
                (curve.getDerivative cos sin (M_PI / 4.0)))
            ++ [Line.totalSumOfRadii (main.totalRadiusSum (main.curves RAND_MAX g))]
      ∧ (main.run RAND_MAX cos sin g).1.cout.length = 10 + 1
      ∧ (main.run RAND_MAX cos sin g).1.curves = main.curves RAND_MAX g
      ∧ (main.run RAND_MAX cos sin g).2 = 0) := by
  have hlen : (main.curves RAND_MAX g : List (Curve3D α)).length = 10 := by
    unfold main.curves
    rw [main.generationLoop_length]
    rfl
  refine ⟨⟨?_, ?_, ?_⟩, ⟨?_, ?_⟩, ?_, ?_, ?_, rfl⟩
  · simp [main.evaluationPass_eq]
  · intro i
    simp [main.evaluationPass_eq, main.t]
  · simp [main.evaluationPass_eq]
  · simp [main.aggregationPass, main.evaluationPass_eq]
  · simp [main.aggregationPass, main.evaluationPass_eq, main.t]
  · simp [main.run, main.aggregationPass, main.evaluationPass_eq, main.t]
  · simp [main.run, main.aggregationPass, main.evaluationPass_eq, hlen]
  · simp [main.run, main.aggregationPass, main.evaluationPass_eq]

end Output

/-! ## Bounds on the total of a generated scene -/

section TotalBounds
variable {α : Type} [LinearOrderedField α]

theorem main.radius_bounds (RAND_MAX r : Nat) (hmax : 0 < RAND_MAX) (hr : r ≤ RAND_MAX) :
    (1 : α) ≤ main.radius RAND_MAX r ∧ (main.radius RAND_MAX r : α) ≤ 11 := by
  obtain ⟨h0, h1, _⟩ := main.ratio_bounds (α := α) RAND_MAX r hmax hr
  unfold main.radius
  constructor
  · norm_num
    linarith
  · norm_num
    linarith

theorem main.circle_mem_curves (RAND_MAX : Nat) (g : RandState) (c : Circle α)
    (hc : Curve3D.circle c ∈ (main.curves RAND_MAX g : List (Curve3D α))) :
    ∃ i, i < 10 ∧ c.getRadius = main.radius RAND_MAX (g (3 * i)) := by
  rw [main.curves_eq, List.mem_map] at hc
  obtain ⟨i, hi, heq⟩ := hc
  refine ⟨i, List.mem_range.mp hi, ?_⟩
  split_ifs at heq
  · cases heq
    rfl

theorem main.mem_filterMap_circle {α : Type} (scene : List (Curve3D α)) (c : Circle α) :
    c ∈ scene.filterMap Curve3D.dynamicCastCircle ↔ Curve3D.circle c ∈ scene := by
  rw [List.mem_filterMap]
  constructor
  · rintro ⟨curve, hmem, hcast⟩
    cases curve with
    | circle k =>
      simp only [Curve3D.dynamicCastCircle, Option.some.injEq] at hcast
      rw [← hcast]
      exact hmem
    | ellipse e => simp [Curve3D.dynamicCastCircle] at hcast
    | helix h => simp [Curve3D.dynamicCastCircle] at hcast
  · intro hmem
    exact ⟨Curve3D.circle c, hmem, rfl⟩

theorem main.sum_radii_bounds (l : List (Circle α))
    (hl : ∀ c ∈ l, (1 : α) ≤ c.getRadius ∧ c.getRadius ≤ 11) :
    (l.length : α) ≤ (l.map Circle.getRadius).sum
      ∧ (l.map Circle.getRadius).sum ≤ 11 * (l.length : α) := by
  induction l with
  | nil => simp
  | cons c cs ih =>
    have hc := hl c (List.mem_cons_self c cs)
    have hcs := ih (fun d hd => hl d (List.mem_cons_of_mem c hd))
    simp only [List.map_cons, List.sum_cons, List.length_cons, Nat.cast_add, Nat.cast_one]
    constructor
    · linarith [hc.1, hcs.1]
    · linarith [hc.2, hcs.2]

/-- C20: for `RAND_MAX > 0` and every sequence of values of `rand()` in `0..RAND_MAX`, with
`k` the number of Circle curves of the generated scene, the total sum of radii lies between
`k` and `11 * k`; the total is 0 exactly when the scene has no Circle; every generated circle
has a radius of at least 1. -/
theorem generated_total_bounds (RAND_MAX : Nat) (g : RandState) (hmax : 0 < RAND_MAX)
    (hg : ∀ n, g n ≤ RAND_MAX) :
    (((main.curves RAND_MAX g : List (Curve3D α)).filterMap
          Curve3D.dynamicCastCircle).length : α)
        ≤ main.totalRadiusSum (main.curves RAND_MAX g : List (Curve3D α))
      ∧ main.totalRadiusSum (main.curves RAND_MAX g : List (Curve3D α))
        ≤ 11 * (((main.curves RAND_MAX g : List (Curve3D α)).filterMap
          Curve3D.dynamicCastCircle).length : α)
      ∧ (main.totalRadiusSum (main.curves RAND_MAX g : List (Curve3D α)) = 0
          ↔ ((main.curves RAND_MAX g : List (Curve3D α)).filterMap
              Curve3D.dynamicCastCircle).length = 0)
      ∧ (main.totalRadiusSum (main.curves RAND_MAX g : List (Curve3D α)) = 0
          ↔ ∀ c : Circle α, Curve3D.circle c ∉ (main.curves RAND_MAX g : List (Curve3D α)))
      ∧ (∀ c : Circle α, Curve3D.circle c ∈ (main.curves RAND_MAX g : List (Curve3D α)) →
          (1 : α) ≤ c.getRadius) := by
  have hrad : ∀ c : Circle α, Curve3D.circle c ∈ (main.curves RAND_MAX g : List (Curve3D α)) →
      (1 : α) ≤ c.getRadius ∧ c.getRadius ≤ 11 := by
    intro c hc
    obtain ⟨i, _, hi⟩ := main.circle_mem_curves RAND_MAX g c hc
    rw [hi]
    exact main.radius_bounds RAND_MAX _ hmax (hg _)
  have hb := main.sum_radii_bounds
    ((main.curves RAND_MAX g : List (Curve3D α)).filterMap Curve3D.dynamicCastCircle)
    (fun c hc => hrad c ((main.mem_filterMap_circle _ c).mp hc))
  rw [← main.totalRadiusSum_eq] at hb
  have hzero : main.totalRadiusSum (main.curves RAND_MAX g : List (Curve3D α)) = 0
      ↔ ((main.curves RAND_MAX g : List (Curve3D α)).filterMap
          Curve3D.dynamicCastCircle).length = 0 := by
    constructor
    · intro h0
      rw [h0] at hb
      have hk : (((main.curves RAND_MAX g : List (Curve3D α)).filterMap
          Curve3D.dynamicCastCircle).length : α) = 0 :=
        le_antisymm hb.1 (Nat.cast_nonneg _)
      exact_mod_cast hk
    · intro hk
      rw [hk] at hb
      have h1 : main.totalRadiusSum (main.curves RAND_MAX g : List (Curve3D α)) ≤ 0 := by
        simpa using hb.2
      have h2 : (0 : α) ≤ main.totalRadiusSum (main.curves RAND_MAX g : List (Curve3D α)) := by
        simpa using hb.1
      exact le_antisymm h1 h2
  refine ⟨hb.1, hb.2, hzero, ?_, fun c hc => (hrad c hc).1⟩
  rw [hzero, List.length_eq_zero, List.eq_nil_iff_forall_not_mem]
  constructor
  · intro h c hc
    exact h c ((main.mem_filterMap_circle _ c).mpr hc)
  · intro h c hc
    exact h c ((main.mem_filterMap_circle _ c).mp hc)

/-- Witness for C20: `RAND_MAX = 32767` and the stream 0, 0, 0, 1, 1, 1, 2, ..., whose slots
0, 3, 6 and 9 are circles. -/
theorem generated_total_bounds_witness :
    (0 < 32767 ∧ ∀ n, (fun n => n / 3 % 32768) n ≤ 32767)
      ∧ (((main.curves 32767 (fun n => n / 3 % 32768) : List (Curve3D ℚ)).filterMap
            Curve3D.dynamicCastCircle).length : ℚ)
          ≤ main.totalRadiusSum (main.curves 32767 (fun n => n / 3 % 32768) : List (Curve3D ℚ))
      ∧ main.totalRadiusSum (main.curves 32767 (fun n => n / 3 % 32768) : List (Curve3D ℚ))
          ≤ 11 * (((main.curves 32767 (fun n => n / 3 % 32768) : List (Curve3D ℚ)).filterMap
            Curve3D.dynamicCastCircle).length : ℚ) :=
  ⟨⟨by decide, fun n => by show n / 3 % 32768 ≤ 32767; omega⟩,
    (generated_total_bounds 32767 (fun n => n / 3 % 32768) (by decide)
      (fun n => by show n / 3 % 32768 ≤ 32767; omega)).1,
    (generated_total_bounds 32767 (fun n => n / 3 % 32768) (by decide)
      (fun n => by show n / 3 % 32768 ≤ 32767; omega)).2.1⟩

end TotalBounds

end TestCadex
